import Mathlib

/-!
Shallow embedding of the CAPI catalog-backend plugin
(bigkevmcd/backstage-plugins): the config resolver
(`readProviderConfigs`), the kubeconfig secret resolver
(`decodeKubeConfigFromSecret` / `getClusterKubeConfig`), the entity
mapper and the reconciliation driver (`CAPIClusterProvider.refresh`),
together with theorems checking the specification's claims against it.

JavaScript conventions used throughout the embedding:
- a JS value that may be `undefined` is an `Option`; `none` is `undefined`;
- a JS object literal is a structure whose fields hold those options;
  a string-keyed JS object used as a map is a `List (String × Option String)`
  so that a key that is present with value `undefined` stays distinguishable
  from an absent key;
- a JS expression that can throw is an `Except String`;
- `a || b` on strings is `jsOr` / `jsOrD` (the empty string is falsy);
  on arrays it is `jsOrArr` (every array, even `[]`, is truthy).
-/

namespace CapiProvider

/-! ### Annotation key constants (constants.ts and external packages) -/

/-- `ANNOTATION_CAPI_PROVIDER` from constants.ts. -/
def ANNOTATION_CAPI_PROVIDER : String := "cluster.x-k8s.io/capi-provider"

/-- `ANNOTATION_CAPI_CLUSTER_LIFECYCLE` from constants.ts. -/
def ANNOTATION_CAPI_CLUSTER_LIFECYCLE : String := "cluster.x-k8s.io/cluster-lifecycle"

/-- `ANNOTATION_CAPI_CLUSTER_OWNER` from constants.ts. -/
def ANNOTATION_CAPI_CLUSTER_OWNER : String := "cluster.x-k8s.io/cluster-owner"

/-- `ANNOTATION_CAPI_CLUSTER_DESCRIPTION` from constants.ts. -/
def ANNOTATION_CAPI_CLUSTER_DESCRIPTION : String := "cluster.x-k8s.io/cluster-description"

/-- `ANNOTATION_CAPI_CLUSTER_SYSTEM` from constants.ts. -/
def ANNOTATION_CAPI_CLUSTER_SYSTEM : String := "cluster.x-k8s.io/cluster-system"

/-- `ANNOTATION_CAPI_CLUSTER_TAGS` from constants.ts. -/
def ANNOTATION_CAPI_CLUSTER_TAGS : String := "cluster.x-k8s.io/cluster-tags"

/-- `ANNOTATION_LOCATION` from the catalog model package. -/
def ANNOTATION_LOCATION : String := "backstage.io/managed-by-location"

/-- `ANNOTATION_ORIGIN_LOCATION` from the catalog model package. -/
def ANNOTATION_ORIGIN_LOCATION : String := "backstage.io/managed-by-origin-location"

/-- `ANNOTATION_KUBERNETES_API_SERVER` from the kubernetes-common package. -/
def ANNOTATION_KUBERNETES_API_SERVER : String := "kubernetes.io/api-server"

/-- `ANNOTATION_KUBERNETES_API_SERVER_CA` from the kubernetes-common package. -/
def ANNOTATION_KUBERNETES_API_SERVER_CA : String :=
  "kubernetes.io/api-server-certificate-authority"

/-- `ANNOTATION_KUBERNETES_AUTH_PROVIDER` from the kubernetes-common package. -/
def ANNOTATION_KUBERNETES_AUTH_PROVIDER : String := "kubernetes.io/auth-provider"

/-! ### JavaScript value helpers -/

/-- JS `a || b` for string values that may be `undefined`: the empty string is
falsy, so it falls through to `b`. -/
def jsOr (a b : Option String) : Option String :=
  match a with
  | some s => if s = "" then b else some s
  | none => b

/-- JS `a || b` where `b` is a string literal, giving a definite string. -/
def jsOrD (a : Option String) (b : String) : String :=
  match a with
  | some s => if s = "" then b else s
  | none => b

/-- JS `a || b` for array values: every array (even the empty one) is truthy. -/
def jsOrArr (a b : Option (List String)) : Option (List String) :=
  match a with
  | some l => some l
  | none => b

/-- JS template-string interpolation of a possibly-`undefined` value. -/
def jsShow (s : Option String) : String :=
  match s with
  | some v => v
  | none => "undefined"

/-- JS `String.prototype.split` with a one-character separator, over the
character list: `"".split(',')` is `[""]`, and separators delimit (possibly
empty) groups. -/
def jsSplitChars (sep : Char) : List Char → List (List Char)
  | [] => [[]]
  | c :: cs =>
    match jsSplitChars sep cs with
    | [] => [[]]
    | g :: gs => if c = sep then [] :: g :: gs else (c :: g) :: gs

/-- JS `String.prototype.split` with a one-character separator. -/
def jsSplit (sep : Char) (s : String) : List String :=
  (jsSplitChars sep s.toList).map String.mk

/-- JS `String.prototype.trim`: strips leading and trailing whitespace. -/
def jsTrim (s : String) : String :=
  String.mk (((s.toList.dropWhile Char.isWhitespace).reverse.dropWhile
    Char.isWhitespace).reverse)

/-! ### The CAPI Cluster object (helpers/types.ts) -/

/-- `ObjectReference` from types.ts.  The CAPI `infrastructureRef` is an
ObjectReference which allows `kind` to be omitted at runtime, so every field is
optional here. -/
structure ObjectReference where
  kind : Option String
  name : Option String
  ns : Option String
deriving DecidableEq

/-- The `metadata` part of a Kubernetes object as used by the provider:
`name`, `namespace` and the string-keyed `annotations` map. -/
structure ClusterMetadata where
  name : Option String
  ns : Option String
  annotations : List (String × String)
deriving DecidableEq

/-- The `spec` part of the CAPI `Cluster` from types.ts. -/
structure ClusterSpec where
  paused : Bool
  controlPlaneRef : Option ObjectReference
  infrastructureRef : Option ObjectReference
deriving DecidableEq

/-- `Cluster` from types.ts: `metadata` (optional, as a KubernetesObject) and
`spec`. -/
structure Cluster where
  metadata : Option ClusterMetadata
  spec : ClusterSpec
deriving DecidableEq

/-- `cluster.metadata?.annotations?.[key]`: the annotation value for a key, or
`none` when metadata, the annotations map, or the key is absent. -/
def annLookup (cluster : Cluster) (key : String) : Option String :=
  cluster.metadata.bind (fun m => m.annotations.lookup key)

/-- `capiClusterProvider` (CAPIClusterProvider.ts):
`cluster.spec.infrastructureRef?.kind ?? ''`. -/
def capiClusterProvider (cluster : Cluster) : String :=
  match cluster.spec.infrastructureRef with
  | some r => match r.kind with
    | some k => k
    | none => ""
  | none => ""

/-- `clusterName` (CAPIClusterProvider.ts):
the template string `` `${cluster.metadata?.namespace}/${cluster.metadata?.name}` ``. -/
def clusterName (cluster : Cluster) : String :=
  jsShow (cluster.metadata.bind (·.ns)) ++ "/" ++ jsShow (cluster.metadata.bind (·.name))

/-- The record returned by `clusterAnnotations` (CAPIClusterProvider.ts). -/
structure ClusterAnnotations where
  lifecycle : Option String
  owner : Option String
  description : Option String
  system : Option String
  tags : Option (List String)
deriving DecidableEq

/-- `clusterAnnotations` (CAPIClusterProvider.ts): reads the five well-known
annotations off the CAPI Cluster; the tags annotation is split on `','` and
each token trimmed. -/
def clusterAnnotations (cluster : Cluster) : ClusterAnnotations :=
  { lifecycle := annLookup cluster ANNOTATION_CAPI_CLUSTER_LIFECYCLE
    owner := annLookup cluster ANNOTATION_CAPI_CLUSTER_OWNER
    description := annLookup cluster ANNOTATION_CAPI_CLUSTER_DESCRIPTION
    system := annLookup cluster ANNOTATION_CAPI_CLUSTER_SYSTEM
    tags := (annLookup cluster ANNOTATION_CAPI_CLUSTER_TAGS).map
      (fun s => (jsSplit ',' s).map jsTrim) }

/-! ### Config tree and the config resolver (helpers/config.ts) -/

/-- A Backstage configuration tree: string leaves, string-array leaves and
keyed nodes, as read through the `Config` interface. -/
inductive ConfigValue where
  | str : String → ConfigValue
  | strArr : List String → ConfigValue
  | node : List (String × ConfigValue) → ConfigValue

/-- The direct child of a node for a key (`undefined` on leaves or missing
keys). -/
def configChild (c : ConfigValue) (key : String) : Option ConfigValue :=
  match c with
  | .node kvs => kvs.lookup key
  | _ => none

/-- Descend through a dotted config path, one key at a time. -/
def configPath (c : ConfigValue) : List String → Option ConfigValue
  | [] => some c
  | k :: ks => match configChild c k with
    | some v => configPath v ks
    | none => none

/-- `config.getOptionalConfig(key)`: the subtree at a dotted key, if any. -/
def getOptionalConfig (c : ConfigValue) (key : String) : Option ConfigValue :=
  configPath c (jsSplit '.' key)

/-- `config.has(key)`. -/
def hasKey (c : ConfigValue) (key : String) : Bool :=
  (getOptionalConfig c key).isSome

/-- `config.keys()`: the child keys of a node. -/
def configKeys (c : ConfigValue) : List String :=
  match c with
  | .node kvs => kvs.map Prod.fst
  | _ => []

/-- `config.getString(key)`: throws when the key is missing or not a string. -/
def getString (c : ConfigValue) (key : String) : Except String String :=
  match getOptionalConfig c key with
  | some (.str s) => .ok s
  | some _ => .error ("Invalid type in config for key " ++ key)
  | none => .error ("Missing required config value at " ++ key)

/-- `config.getConfig(key)`: throws when the key is missing. -/
def getConfig (c : ConfigValue) (key : String) : Except String ConfigValue :=
  match getOptionalConfig c key with
  | some v => .ok v
  | none => .error ("Missing required config value at " ++ key)

/-- `config.getOptionalString(key)`: `undefined` when absent, throws when
present with the wrong type. -/
def getOptionalString (c : ConfigValue) (key : String) : Except String (Option String) :=
  match getOptionalConfig c key with
  | some (.str s) => .ok (some s)
  | some _ => .error ("Invalid type in config for key " ++ key)
  | none => .ok none

/-- `config.getOptionalStringArray(key)`. -/
def getOptionalStringArray (c : ConfigValue) (key : String) :
    Except String (Option (List String)) :=
  match getOptionalConfig c key with
  | some (.strArr l) => .ok (some l)
  | some _ => .error ("Invalid type in config for key " ++ key)
  | none => .ok none

/-- `ProviderDefaults` from types.ts. -/
structure ProviderDefaults where
  clusterOwner : Option String
  system : Option String
  lifecycle : Option String
  tags : Option (List String)
deriving DecidableEq

/-- `ProviderConfig` from types.ts.  The schedule is kept as the raw config
subtree handed to the external `readTaskScheduleDefinitionFromConfig`. -/
structure ProviderConfig where
  id : String
  hubClusterName : String
  schedule : Option ConfigValue
  defaults : Option ProviderDefaults

/-- `parseDefaults` (helpers/config.ts): reads the optional
clusterOwner/system/lifecycle/tags defaults, or `undefined` when the defaults
node is absent. -/
def parseDefaults : Option ConfigValue → Except String (Option ProviderDefaults)
  | none => .ok none
  | some config => do
    let clusterOwner ← getOptionalString config "clusterOwner"
    let system ← getOptionalString config "system"
    let lifecycle ← getOptionalString config "lifecycle"
    let tags ← getOptionalStringArray config "tags"
    .ok (some { clusterOwner := clusterOwner, system := system,
                lifecycle := lifecycle, tags := tags })

/-- `readProviderConfig` (helpers/config.ts): requires `hubClusterName`,
optionally reads `schedule` and `defaults`. -/
def readProviderConfig (id : String) (config : ConfigValue) :
    Except String ProviderConfig := do
  let hubClusterName ← getString config "hubClusterName"
  let schedule : Option ConfigValue :=
    if hasKey config "schedule" then getOptionalConfig config "schedule" else none
  let defaults ← parseDefaults (getOptionalConfig config "defaults")
  .ok { id := id, hubClusterName := hubClusterName,
        schedule := schedule, defaults := defaults }

/-- Sequential `Array.prototype.map` with exceptions: the first throw
propagates, otherwise the mapped list is returned. -/
def exceptMap {α β : Type} (f : α → Except String β) : List α → Except String (List β)
  | [] => .ok []
  | a :: as =>
    match f a with
    | .error e => .error e
    | .ok b =>
      match exceptMap f as with
      | .error e => .error e
      | .ok bs => .ok (b :: bs)

/-- The per-child-key body of the multi-provider branch of
`readProviderConfigs`: `readProviderConfig(name, providersConfig.getConfig(name))`. -/
def readChildProvider (providersConfig : ConfigValue) (name : String) :
    Except String ProviderConfig := do
  let providerConfig ← getConfig providersConfig name
  readProviderConfig name providerConfig

/-- `readProviderConfigs` (helpers/config.ts): empty when
`catalog.providers.capi` is absent; a single provider with id `"default"` when
the node carries `hubClusterName` directly; otherwise one provider per child
key. -/
def readProviderConfigs (config : ConfigValue) : Except String (List ProviderConfig) :=
  match getOptionalConfig config "catalog.providers.capi" with
  | none => .ok []
  | some providersConfig =>
    if hasKey providersConfig "hubClusterName" then do
      let pc ← readProviderConfig "default" providersConfig
      .ok [pc]
    else
      exceptMap (readChildProvider providersConfig) (configKeys providersConfig)

/-! ### KubeConfig secrets (helpers/secret.ts) -/

/-- One entry of `KubeConfig.clusters`: the API server URL and the optional
certificate-authority data. -/
structure KubeCluster where
  server : String
  caData : Option String
deriving DecidableEq

/-- The decoded `KubeConfig`: only its `clusters` list is read by the
provider.  `new KubeConfig()` starts with an empty list. -/
structure KubeConfig where
  clusters : List KubeCluster
deriving DecidableEq

/-- A `V1Secret` as read by the secret helpers: its `type` marker and the
base64 `data.value` payload. -/
structure V1Secret where
  secretType : Option String
  dataValue : Option String
deriving DecidableEq

/-- The external collaborators of one refresh cycle, each modelled as the
outcome of the corresponding library or API call:
`Buffer` base64 decoding, `KubeConfig.loadFromString` (errors on a malformed
document), `CoreV1Api.readNamespacedSecret` (errors when the secret is missing
or unreadable) and `CustomObjectsApi.listClusterCustomObject` via
`getCAPIClusters` (errors on transport/API failure). -/
structure RefreshEnv where
  decodeBase64 : String → String
  loadFromString : String → Except String KubeConfig
  readNamespacedSecret : String → String → Except String V1Secret
  listClusters : Except String (List Cluster)

/-- `decodeKubeConfigFromSecret` (helpers/secret.ts): base64-decodes
`secret.data?.value ?? ''` and loads it; a load error is caught and logged, so
the freshly constructed (empty) KubeConfig is returned instead of failing. -/
def decodeKubeConfigFromSecret (env : RefreshEnv) (secret : V1Secret) : KubeConfig :=
  let decoded := env.decodeBase64 (secret.dataValue.getD "")
  match env.loadFromString decoded with
  | .ok kc => kc
  | .error _ => { clusters := [] }

/-- `getClusterKubeConfig` (helpers/secret.ts): reads the named secret and
decodes it; only the secret read itself can reject. -/
def getClusterKubeConfig (env : RefreshEnv) (name ns : String) :
    Except String KubeConfig :=
  match env.readNamespacedSecret name ns with
  | .error e => .error e
  | .ok body => .ok (decodeKubeConfigFromSecret env body)

/-! ### The entity mapper and the refresh driver (CAPIClusterProvider.ts) -/

/-- The `metadata` of a mapped Resource entity.  The annotations object keeps
JS key-presence: a key mapped to `none` is present with value `undefined`. -/
structure EntityMetadata where
  name : Option String
  title : Option String
  description : Option String
  annotations : List (String × Option String)
  tags : Option (List String)
deriving DecidableEq, Inhabited

/-- The `spec` of a mapped Resource entity. -/
structure EntitySpec where
  owner : String
  resType : String
  lifecycle : Option String
  system : Option String
deriving DecidableEq, Inhabited

/-- A mapped `ResourceEntity`. -/
structure ResourceEntity where
  kind : String
  apiVersion : String
  metadata : EntityMetadata
  spec : EntitySpec
deriving DecidableEq, Inhabited

/-- `getProviderName` (CAPIClusterProvider.ts):
`` `CAPIClusterProvider:${this.config.id}` ``. -/
def getProviderName (id : String) : String := "CAPIClusterProvider:" ++ id

/-- The JS expression `clusterKubeConfig?.clusters[0].server!`: `undefined`
when the kubeconfig is `undefined`; a TypeError when it is present with no
clusters; the first cluster's server otherwise. -/
def kubeServerValue (kc : Option KubeConfig) : Except String (Option String) :=
  match kc with
  | none => .ok none
  | some k =>
    match k.clusters.head? with
    | none => .error "TypeError: cannot read properties of undefined (reading server)"
    | some c => .ok (some c.server)

/-- The JS expression `clusterKubeConfig?.clusters[0].caData!`, likewise. -/
def kubeCaValue (kc : Option KubeConfig) : Except String (Option String) :=
  match kc with
  | none => .ok none
  | some k =>
    match k.clusters.head? with
    | none => .error "TypeError: cannot read properties of undefined (reading caData)"
    | some c => .ok c.caData

/-- The Resource object literal built in `refresh` (lines 200-223) for one
cluster, given the already-evaluated API-server and CA annotation values.  The
subsequent `if (clusterKubeConfig)` block (lines 225-229) re-assigns the same
three annotation values and is therefore a no-op on every reachable path. -/
def entityFor (providerName : String) (defaults : Option ProviderDefaults)
    (cluster : Cluster) (server ca : Option String) : ResourceEntity :=
  let anns := clusterAnnotations cluster
  { kind := "Resource"
    apiVersion := "backstage.io/v1beta1"
    metadata :=
      { name := cluster.metadata.bind (·.name)
        title := cluster.metadata.bind (·.name)
        description := anns.description
        annotations :=
          [(ANNOTATION_LOCATION, some providerName),
           (ANNOTATION_ORIGIN_LOCATION, some providerName),
           (ANNOTATION_CAPI_PROVIDER, some (capiClusterProvider cluster)),
           (ANNOTATION_KUBERNETES_API_SERVER, server),
           (ANNOTATION_KUBERNETES_API_SERVER_CA, ca),
           (ANNOTATION_KUBERNETES_AUTH_PROVIDER, some "oidc")]
        tags := jsOrArr anns.tags (defaults.bind (·.tags)) }
    spec :=
      { owner := jsOrD (jsOr anns.owner (defaults.bind (·.clusterOwner))) "guest"
        resType := "kubernetes-cluster"
        lifecycle := jsOr anns.lifecycle (defaults.bind (·.lifecycle))
        system := jsOr anns.system (defaults.bind (·.system)) } }

/-- One step of the `clusters.items.map` in `refresh`: evaluating the object
literal throws if the kubeconfig for the cluster is present but has no
clusters. -/
def mapClusterEntity (providerName : String) (defaults : Option ProviderDefaults)
    (clusterKubeConfig : Option KubeConfig) (cluster : Cluster) :
    Except String ResourceEntity :=
  match kubeServerValue clusterKubeConfig with
  | .error e => .error e
  | .ok server =>
    match kubeCaValue clusterKubeConfig with
    | .error e => .error e
    | .ok ca => .ok (entityFor providerName defaults cluster server ca)

/-- The secret name used by `refresh`:
`` `${cluster.metadata?.name}-kubeconfig` ``. -/
def secretNameFor (cluster : Cluster) : String :=
  jsShow (cluster.metadata.bind (·.name)) ++ "-kubeconfig"

/-- The secret namespace used by `refresh`:
`cluster.metadata?.namespace || 'default'`. -/
def secretNsFor (cluster : Cluster) : String :=
  jsOrD (cluster.metadata.bind (·.ns)) "default"

/-- The `clusterKubeConfigs` fan-out in `refresh`: per cluster, the fetched
kubeconfig keyed by `clusterName`, with any rejection caught to `undefined`
(`.catch(e => undefined)`). -/
def fetchedKubeConfigs (env : RefreshEnv) (clusters : List Cluster) :
    List (String × Option KubeConfig) :=
  clusters.map (fun c =>
    (clusterName c, (getClusterKubeConfig env (secretNameFor c) (secretNsFor c)).toOption))

/-- `new Map(pairs).get(key)`: a later entry for the same key overrides an
earlier one, and a missing key yields `undefined`. -/
def jsMapGet (pairs : List (String × Option KubeConfig)) (key : String) :
    Option KubeConfig :=
  match pairs.reverse.lookup key with
  | some v => v
  | none => none

/-- The `resources` computation of `refresh` (lines 194-232): each cluster is
mapped with the kubeconfig resolved for its `clusterName` key. -/
def refreshResources (env : RefreshEnv) (providerName : String)
    (defaults : Option ProviderDefaults) (clusters : List Cluster) :
    Except String (List ResourceEntity) :=
  let kubeConfigs := fetchedKubeConfigs env clusters
  exceptMap
    (fun c => mapClusterEntity providerName defaults (jsMapGet kubeConfigs (clusterName c)) c)
    clusters

/-- One entry of an `applyMutation` call. -/
structure MutationEntry where
  entity : ResourceEntity
  locationKey : String
deriving DecidableEq

/-- A full-set mutation handed to `connection.applyMutation`. -/
structure Mutation where
  mutType : String
  entities : List MutationEntry
deriving DecidableEq

/-- The observable outcome of one `refresh` call: the `applyMutation` calls it
made, in order, and whether it returned normally or threw. -/
structure RefreshOutcome where
  mutations : List Mutation
  result : Except String Unit

/-- `CAPIClusterProvider.refresh` (lines 168-241): throws when disconnected;
lists the CAPI clusters; fetches the per-cluster kubeconfigs (failures caught
to `undefined`); maps every cluster to a Resource entity; and submits one
full-set mutation whose entries all carry the provider name as location key.
A throw anywhere before the submission means no mutation is applied. -/
def refresh (env : RefreshEnv) (providerId : String)
    (defaults : Option ProviderDefaults) (connected : Bool) : RefreshOutcome :=
  let providerName := getProviderName providerId
  if connected = false then
    { mutations := [], result := .error "Not initialized" }
  else
    match env.listClusters with
    | .error e => { mutations := [], result := .error e }
    | .ok clusters =>
      match refreshResources env providerName defaults clusters with
      | .error e => { mutations := [], result := .error e }
      | .ok resources =>
        { mutations :=
            [{ mutType := "full",
               entities := resources.map
                 (fun entity => { entity := entity, locationKey := providerName }) }],
          result := .ok () }

/-- What one scheduled tick observably does: the messages logged by the
wrapper's catch handler, and the exception (if any) escaping past the tick. -/
structure TaskRunOutcome where
  logged : List String
  raised : Option String

/-- The task body installed by `createScheduleFn` (lines 135-155): runs
`refresh` in a try/catch that logs `` `${getProviderName()} refresh failed` ``
and swallows the error. -/
def scheduledTaskFn (env : RefreshEnv) (providerId : String)
    (defaults : Option ProviderDefaults) (connected : Bool) : TaskRunOutcome :=
  match (refresh env providerId defaults connected).result with
  | .ok _ => { logged := [], raised := none }
  | .error e =>
    { logged := [getProviderName providerId ++ " refresh failed: " ++ e],
      raised := none }

/-! ### Concrete sample inputs for witnesses and counterexamples -/

/-- Extract the value of a successful computation; used only to name the
concrete results of running the embedded code on sample inputs. -/
def exOk {α : Type} [Inhabited α] : Except String α → α
  | .ok a => a
  | .error _ => default

/-- Shorthand for a cluster metadata value. -/
def mkMeta (name ns : String) (annotations : List (String × String)) : ClusterMetadata :=
  { name := some name
    ns := some ns
    annotations := annotations }

/-- Shorthand for a cluster spec with an AWSManagedCluster infrastructure
reference. -/
def awsSpec : ClusterSpec :=
  { paused := false
    controlPlaneRef := some
      { kind := some "AWSManagedControlPlane"
        name := some "test-cluster-control-plane"
        ns := none }
    infrastructureRef := some
      { kind := some "AWSManagedCluster"
        name := some "test-cluster"
        ns := none } }

/-- Shorthand for a cluster spec with no references at all. -/
def bareSpec : ClusterSpec :=
  { paused := false
    controlPlaneRef := none
    infrastructureRef := none }

/-- A remote cluster whose kubeconfig secret read will fail. -/
def c1Cluster : Cluster :=
  { metadata := some (mkMeta "cluster1" "clusters"
      [(ANNOTATION_CAPI_CLUSTER_LIFECYCLE, "production")])
    spec := awsSpec }

/-- An environment where the kubeconfig secret read rejects (missing
secret). -/
def c1Env : RefreshEnv :=
  { decodeBase64 := fun s => s
    loadFromString := fun _ => .error "unreachable: the secret read fails first"
    readNamespacedSecret := fun _ _ => .error "secret cluster1-kubeconfig not found"
    listClusters := .ok [c1Cluster] }

/-- A remote cluster whose kubeconfig secret exists but does not decode. -/
def c2Cluster : Cluster :=
  { metadata := some (mkMeta "cluster2" "clusters" [])
    spec := awsSpec }

/-- A secret carrying the CAPI type marker and a payload that is not a valid
kubeconfig document. -/
def c2Secret : V1Secret :=
  { secretType := some "cluster.x-k8s.io/secret"
    dataValue := some "bm90LWEta3ViZWNvbmZpZw==" }

/-- An environment where the secret is fetched successfully but
`loadFromString` rejects its payload. -/
def c2Env : RefreshEnv :=
  { decodeBase64 := fun _ => "not-a-kubeconfig"
    loadFromString := fun _ => .error "YAMLException: malformed kubeconfig document"
    readNamespacedSecret := fun _ _ => .ok c2Secret
    listClusters := .ok [c2Cluster] }

/-- A root configuration with no `catalog.providers.capi` node. -/
def c3RootEmpty : ConfigValue := .node []

/-- A capi node that directly carries `hubClusterName`. -/
def c3SingleNode : ConfigValue := .node [("hubClusterName", .str "demo-cluster")]

/-- A root configuration for the single-provider variant. -/
def c3RootSingle : ConfigValue :=
  .node [("catalog", .node [("providers", .node [("capi", c3SingleNode)])])]

/-- A capi node with two named child providers. -/
def c3MultiNode : ConfigValue :=
  .node [("eu-clusters", .node [("hubClusterName", .str "eu-cluster")]),
         ("us-clusters", .node [("hubClusterName", .str "us-cluster")])]

/-- A root configuration for the multi-provider variant. -/
def c3RootMulti : ConfigValue :=
  .node [("catalog", .node [("providers", .node [("capi", c3MultiNode)])])]

/-- The provider config parsed from `c3SingleNode`. -/
def c3SinglePc : ProviderConfig :=
  { id := "default"
    hubClusterName := "demo-cluster"
    schedule := none
    defaults := none }

/-- The provider config parsed from the `eu-clusters` child. -/
def c3EuPc : ProviderConfig :=
  { id := "eu-clusters"
    hubClusterName := "eu-cluster"
    schedule := none
    defaults := none }

/-- The provider config parsed from the `us-clusters` child. -/
def c3UsPc : ProviderConfig :=
  { id := "us-clusters"
    hubClusterName := "us-cluster"
    schedule := none
    defaults := none }

/-- An environment whose CAPI list call fails. -/
def c4Env : RefreshEnv :=
  { decodeBase64 := fun s => s
    loadFromString := fun _ => .error "unused"
    readNamespacedSecret := fun _ _ => .error "unused"
    listClusters := .error "connect ECONNREFUSED listing CAPI clusters" }

/-- A remote cluster with no annotations at all. -/
def c5Cluster : Cluster :=
  { metadata := some (mkMeta "cluster3" "clusters" [])
    spec := awsSpec }

/-- A remote cluster with a non-empty owner annotation. -/
def c5OwnerCluster : Cluster :=
  { metadata := some (mkMeta "cluster3" "clusters"
      [(ANNOTATION_CAPI_CLUSTER_OWNER, "group:pet-managers")])
    spec := bareSpec }

/-- Provider defaults carrying only a default owner. -/
def c5Defaults : ProviderDefaults :=
  { clusterOwner := some "group:test-team"
    system := none
    lifecycle := none
    tags := none }

/-- `c5Cluster` mapped with no provider defaults and absent credentials. -/
def c5Entity : ResourceEntity :=
  exOk (mapClusterEntity "CAPIClusterProvider:default" none none c5Cluster)

/-- `c5OwnerCluster` mapped with defaults: the annotation owner must win. -/
def c5OwnerEntity : ResourceEntity :=
  exOk (mapClusterEntity "CAPIClusterProvider:default" (some c5Defaults) none c5OwnerCluster)

/-- `c5Cluster` mapped with defaults: the default owner must win. -/
def c5DefaultEntity : ResourceEntity :=
  exOk (mapClusterEntity "CAPIClusterProvider:default" (some c5Defaults) none c5Cluster)

/-- A remote cluster with the tags annotation `"tag1, tag2,tag3"`. -/
def c6Cluster : Cluster :=
  { metadata := some (mkMeta "cluster4" "clusters"
      [(ANNOTATION_CAPI_CLUSTER_TAGS, "tag1, tag2,tag3")])
    spec := bareSpec }

/-- Provider defaults with a different default tags list. -/
def c6Defaults : ProviderDefaults :=
  { clusterOwner := none
    system := none
    lifecycle := none
    tags := some ["imported", "capi"] }

/-- `c6Cluster` mapped with the competing default tags. -/
def c6Entity : ResourceEntity :=
  exOk (mapClusterEntity "CAPIClusterProvider:default" (some c6Defaults) none c6Cluster)

/-- Two remote clusters sharing the name `dup` in different namespaces. -/
def c7ClusterA : Cluster :=
  { metadata := some (mkMeta "dup" "ns1" [])
    spec := bareSpec }

/-- See `c7ClusterA`. -/
def c7ClusterB : Cluster :=
  { metadata := some (mkMeta "dup" "ns2" [])
    spec := bareSpec }

/-- An environment listing the two same-named clusters; secret reads fail so
both map without credentials. -/
def c7Env : RefreshEnv :=
  { decodeBase64 := fun s => s
    loadFromString := fun _ => .error "unused"
    readNamespacedSecret := fun _ _ => .error "secret not found"
    listClusters := .ok [c7ClusterA, c7ClusterB] }

/-- The entities mapped for the two same-named clusters. -/
def c7Resources : List ResourceEntity :=
  exOk (refreshResources c7Env (getProviderName "default") none [c7ClusterA, c7ClusterB])

/-- An environment whose CAPI list call returns zero clusters. -/
def c8Env : RefreshEnv :=
  { decodeBase64 := fun s => s
    loadFromString := fun _ => .error "unused"
    readNamespacedSecret := fun _ _ => .error "unused"
    listClusters := .ok [] }

/-- A remote cluster with no `infrastructureRef` at all. -/
def c9Cluster : Cluster :=
  { metadata := some (mkMeta "bare" "clusters" [])
    spec := bareSpec }

/-- `c9Cluster` mapped without credentials. -/
def c9Entity : ResourceEntity :=
  exOk (mapClusterEntity "CAPIClusterProvider:default" none none c9Cluster)

/-- A remote cluster whose owner annotation is the empty string. -/
def c10OwnerEmptyCluster : Cluster :=
  { metadata := some (mkMeta "cluster5" "clusters" [(ANNOTATION_CAPI_CLUSTER_OWNER, "")])
    spec := bareSpec }

/-- A remote cluster whose owner, lifecycle and system annotations are all
empty strings. -/
def c10AllEmptyCluster : Cluster :=
  { metadata := some (mkMeta "cluster6" "clusters"
      [(ANNOTATION_CAPI_CLUSTER_OWNER, ""),
       (ANNOTATION_CAPI_CLUSTER_LIFECYCLE, ""),
       (ANNOTATION_CAPI_CLUSTER_SYSTEM, "")])
    spec := bareSpec }

/-- Provider defaults for every field the empty annotations fall through
to. -/
def c10Defaults : ProviderDefaults :=
  { clusterOwner := some "group:fallback-team"
    system := some "fallback-system"
    lifecycle := some "fallback-lifecycle"
    tags := none }

/-- `c10AllEmptyCluster` mapped with the fallback defaults. -/
def c10EntityWithDefaults : ResourceEntity :=
  exOk (mapClusterEntity "CAPIClusterProvider:default" (some c10Defaults) none
    c10AllEmptyCluster)

/-- `c10OwnerEmptyCluster` mapped with no defaults. -/
def c10EntityNoDefaults : ResourceEntity :=
  exOk (mapClusterEntity "CAPIClusterProvider:default" none none c10OwnerEmptyCluster)

/-! ### Helper lemmas -/

/-- A successful `exceptMap` preserves the length and is pointwise the
successful application of `f`. -/
theorem exceptMap_ok {α β : Type} (f : α → Except String β) :
    ∀ (l : List α) (r : List β), exceptMap f l = .ok r →
      r.length = l.length ∧
      ∀ i (h1 : i < l.length) (h2 : i < r.length),
        f (l.get ⟨i, h1⟩) = .ok (r.get ⟨i, h2⟩) := by
  intro l
  induction l with
  | nil =>
    intro r h
    simp only [exceptMap, Except.ok.injEq] at h
    subst h
    exact ⟨rfl, fun i h1 _ => absurd h1 (by simp)⟩
  | cons a as ih =>
    intro r h
    cases hfa : f a with
    | error e => simp [exceptMap, hfa] at h
    | ok b =>
      cases hrest : exceptMap f as with
      | error e => simp [exceptMap, hfa, hrest] at h
      | ok bs =>
        simp only [exceptMap, hfa, hrest, Except.ok.injEq] at h
        subst h
        obtain ⟨hlen, hpt⟩ := ih bs hrest
        refine ⟨by simp [hlen], ?_⟩
        intro i h1 h2
        cases i with
        | zero => simpa using hfa
        | succ j =>
          have hj := hpt j (by simpa using h1) (by simpa using h2)
          simpa using hj

/-- A successful `mapClusterEntity` is exactly `entityFor` applied to the
successfully evaluated API-server and CA values. -/
theorem mapClusterEntity_ok_iff (pn : String) (dfl : Option ProviderDefaults)
    (kc : Option KubeConfig) (c : Cluster) (e : ResourceEntity) :
    mapClusterEntity pn dfl kc c = .ok e ↔
      ∃ server ca, kubeServerValue kc = .ok server ∧ kubeCaValue kc = .ok ca ∧
        e = entityFor pn dfl c server ca := by
  cases hs : kubeServerValue kc with
  | error e1 => simp [mapClusterEntity, hs]
  | ok server =>
    cases hc : kubeCaValue kc with
    | error e1 => simp [mapClusterEntity, hs, hc]
    | ok ca => simp [mapClusterEntity, hs, hc, eq_comm]

/-- A mapped entity takes its `metadata.name` verbatim from the cluster. -/
theorem mapClusterEntity_name (pn : String) (dfl : Option ProviderDefaults)
    (kc : Option KubeConfig) (c : Cluster) (e : ResourceEntity)
    (h : mapClusterEntity pn dfl kc c = .ok e) :
    e.metadata.name = c.metadata.bind (·.name) := by
  obtain ⟨server, ca, _, _, he⟩ := (mapClusterEntity_ok_iff pn dfl kc c e).mp h
  subst he
  rfl

/-- A successfully parsed provider config carries the id it was parsed
under. -/
theorem readProviderConfig_id (id : String) (c : ConfigValue) (pc : ProviderConfig)
    (h : readProviderConfig id c = .ok pc) : pc.id = id := by
  simp only [readProviderConfig, bind, Except.bind] at h
  split at h
  · exact absurd h (by simp)
  · split at h
    · exact absurd h (by simp)
    · cases h
      rfl

/-- A successfully parsed child provider carries its key as id. -/
theorem readChildProvider_id (node : ConfigValue) (name : String) (pc : ProviderConfig)
    (h : readChildProvider node name = .ok pc) : pc.id = name := by
  simp only [readChildProvider, bind, Except.bind] at h
  split at h
  · exact absurd h (by simp)
  · exact readProviderConfig_id name _ pc h

/-! ### Claim theorems -/

/-- C1 (the claim fails on the code): mapping a cluster whose kubeconfig
secret read fails produces an entity whose annotations object still carries
the auth-provider key with the defined value `"oidc"`, and the API-server and
API-server-CA keys with `undefined` values — none of the three is omitted. -/
theorem capi_c1_annotations_present_without_credentials :
    (refresh c1Env "default" none true).mutations.map (fun m =>
      m.entities.map (fun ent =>
        (ent.entity.metadata.annotations.lookup ANNOTATION_KUBERNETES_AUTH_PROVIDER,
         ent.entity.metadata.annotations.lookup ANNOTATION_KUBERNETES_API_SERVER,
         ent.entity.metadata.annotations.lookup ANNOTATION_KUBERNETES_API_SERVER_CA))) =
      [[(some (some "oidc"), some none, some none)]] := rfl

/-- C2 (the claim fails on the code): when the kubeconfig secret is fetched
but its payload fails to decode, `decodeKubeConfigFromSecret` degrades to a
present-but-empty KubeConfig rather than an absent one, and the mapping step
of the same cycle then throws on `clusters[0]`, so the cycle aborts with no
mutation submitted; only the scheduled-task wrapper stops the error. -/
theorem capi_c2_decode_failure_aborts_refresh :
    decodeKubeConfigFromSecret c2Env c2Secret = { clusters := [] } ∧
    getClusterKubeConfig c2Env "cluster2-kubeconfig" "clusters" =
      .ok { clusters := [] } ∧
    (refresh c2Env "default" none true).mutations = [] ∧
    (refresh c2Env "default" none true).result =
      .error "TypeError: cannot read properties of undefined (reading server)" ∧
    (scheduledTaskFn c2Env "default" none true).raised = none :=
  ⟨rfl, rfl, rfl, rfl, rfl⟩

/-- C3: `readProviderConfigs` returns the empty list when the
`catalog.providers.capi` node is absent; exactly one provider with id
`"default"` when the node directly carries `hubClusterName`; and otherwise one
provider per child key, each with id equal to its key, all parsed by the same
per-provider rules. -/
theorem capi_c3_readProviderConfigs_shape :
    (∀ root, getOptionalConfig root "catalog.providers.capi" = none →
      readProviderConfigs root = .ok []) ∧
    (∀ root node pc,
      getOptionalConfig root "catalog.providers.capi" = some node →
      hasKey node "hubClusterName" = true →
      readProviderConfig "default" node = .ok pc →
      readProviderConfigs root = .ok [pc] ∧ pc.id = "default") ∧
    (∀ root node l,
      getOptionalConfig root "catalog.providers.capi" = some node →
      hasKey node "hubClusterName" = false →
      exceptMap (readChildProvider node) (configKeys node) = .ok l →
      readProviderConfigs root = .ok l ∧ l.length = (configKeys node).length ∧
      ∀ i (h1 : i < (configKeys node).length) (h2 : i < l.length),
        (l.get ⟨i, h2⟩).id = (configKeys node).get ⟨i, h1⟩) := by
  refine ⟨?_, ?_, ?_⟩
  · intro root h
    simp [readProviderConfigs, h]
  · intro root node pc hnode hhub hpc
    refine ⟨?_, readProviderConfig_id _ _ _ hpc⟩
    simp [readProviderConfigs, hnode, hhub, hpc, bind, Except.bind]
  · intro root node l hnode hhub hmap
    refine ⟨by simp [readProviderConfigs, hnode, hhub, hmap], ?_, ?_⟩
    · exact (exceptMap_ok _ _ _ hmap).1
    · intro i h1 h2
      exact readChildProvider_id node _ _ ((exceptMap_ok _ _ _ hmap).2 i h1 h2)

/-- Witness for C3 on the three sample configurations. -/
theorem capi_c3_witness :
    readProviderConfigs c3RootEmpty = .ok [] ∧
    (readProviderConfigs c3RootSingle = .ok [c3SinglePc] ∧ c3SinglePc.id = "default") ∧
    (readProviderConfigs c3RootMulti = .ok [c3EuPc, c3UsPc] ∧
      [c3EuPc, c3UsPc].length = (configKeys c3MultiNode).length) :=
  ⟨capi_c3_readProviderConfigs_shape.1 c3RootEmpty rfl,
   capi_c3_readProviderConfigs_shape.2.1 c3RootSingle c3SingleNode c3SinglePc rfl rfl rfl,
   (capi_c3_readProviderConfigs_shape.2.2 c3RootMulti c3MultiNode [c3EuPc, c3UsPc]
      rfl rfl rfl).1,
   (capi_c3_readProviderConfigs_shape.2.2 c3RootMulti c3MultiNode [c3EuPc, c3UsPc]
      rfl rfl rfl).2.1.symm⟩

/-- C4: a cycle whose CAPI list call fails applies no mutation, and the
scheduled-task wrapper catches the error and logs it instead of letting it
escape past the tick boundary. -/
theorem capi_c4_list_failure_no_mutation (env : RefreshEnv) (id : String)
    (dfl : Option ProviderDefaults) (e : String) (h : env.listClusters = .error e) :
    (refresh env id dfl true).mutations = [] ∧
    scheduledTaskFn env id dfl true =
      { logged := [getProviderName id ++ " refresh failed: " ++ e], raised := none } := by
  constructor
  · simp [refresh, h]
  · simp [scheduledTaskFn, refresh, h]

/-- Witness for C4 at a concrete failing environment. -/
theorem capi_c4_witness :
    (refresh c4Env "default" none true).mutations = [] ∧
    scheduledTaskFn c4Env "default" none true =
      { logged := [getProviderName "default" ++ " refresh failed: " ++
          "connect ECONNREFUSED listing CAPI clusters"], raised := none } :=
  capi_c4_list_failure_no_mutation c4Env "default" none
    "connect ECONNREFUSED listing CAPI clusters" rfl

/-- C5: a cluster with no lifecycle/owner/description/system/tags annotations
mapped under absent provider defaults gets owner `"guest"` and unset
lifecycle, system, tags and description; and the owner precedence is cluster
annotation, then provider default, then the literal `"guest"`. -/
theorem capi_c5_guest_fallback_and_owner_precedence :
    (∀ pn kc c e,
      annLookup c ANNOTATION_CAPI_CLUSTER_LIFECYCLE = none →
      annLookup c ANNOTATION_CAPI_CLUSTER_OWNER = none →
      annLookup c ANNOTATION_CAPI_CLUSTER_DESCRIPTION = none →
      annLookup c ANNOTATION_CAPI_CLUSTER_SYSTEM = none →
      annLookup c ANNOTATION_CAPI_CLUSTER_TAGS = none →
      mapClusterEntity pn none kc c = .ok e →
      e.spec.owner = "guest" ∧ e.spec.lifecycle = none ∧ e.spec.system = none ∧
        e.metadata.tags = none ∧ e.metadata.description = none) ∧
    (∀ pn dfl kc c e o,
      annLookup c ANNOTATION_CAPI_CLUSTER_OWNER = some o → o ≠ "" →
      mapClusterEntity pn dfl kc c = .ok e → e.spec.owner = o) ∧
    (∀ pn dfl kc c e d,
      annLookup c ANNOTATION_CAPI_CLUSTER_OWNER = none →
      dfl.bind (fun x => x.clusterOwner) = some d → d ≠ "" →
      mapClusterEntity pn dfl kc c = .ok e → e.spec.owner = d) ∧
    (∀ pn dfl kc c e,
      annLookup c ANNOTATION_CAPI_CLUSTER_OWNER = none →
      dfl.bind (fun x => x.clusterOwner) = none →
      mapClusterEntity pn dfl kc c = .ok e → e.spec.owner = "guest") := by
  refine ⟨?_, ?_, ?_, ?_⟩
  · intro pn kc c e hl ho hd hs ht hmap
    obtain ⟨server, ca, _, _, he⟩ := (mapClusterEntity_ok_iff pn none kc c e).mp hmap
    subst he
    simp [entityFor, clusterAnnotations, hl, ho, hd, hs, ht, jsOr, jsOrD, jsOrArr]
  · intro pn dfl kc c e o ho hne hmap
    obtain ⟨server, ca, _, _, he⟩ := (mapClusterEntity_ok_iff pn dfl kc c e).mp hmap
    subst he
    simp [entityFor, clusterAnnotations, ho, jsOr, jsOrD, hne]
  · intro pn dfl kc c e d ho hdfl hne hmap
    obtain ⟨server, ca, _, _, he⟩ := (mapClusterEntity_ok_iff pn dfl kc c e).mp hmap
    subst he
    simp [entityFor, clusterAnnotations, ho, hdfl, jsOr, jsOrD, hne]
  · intro pn dfl kc c e ho hdfl hmap
    obtain ⟨server, ca, _, _, he⟩ := (mapClusterEntity_ok_iff pn dfl kc c e).mp hmap
    subst he
    simp [entityFor, clusterAnnotations, ho, hdfl, jsOr, jsOrD]

/-- Witness for C5 at concrete clusters, defaults and mapped entities. -/
theorem capi_c5_witness :
    (c5Entity.spec.owner = "guest" ∧ c5Entity.spec.lifecycle = none ∧
      c5Entity.spec.system = none ∧ c5Entity.metadata.tags = none ∧
      c5Entity.metadata.description = none) ∧
    c5OwnerEntity.spec.owner = "group:pet-managers" ∧
    c5DefaultEntity.spec.owner = "group:test-team" ∧
    c5Entity.spec.owner = "guest" :=
  ⟨capi_c5_guest_fallback_and_owner_precedence.1 "CAPIClusterProvider:default"
     none c5Cluster c5Entity rfl rfl rfl rfl rfl rfl,
   capi_c5_guest_fallback_and_owner_precedence.2.1 "CAPIClusterProvider:default"
     (some c5Defaults) none c5OwnerCluster c5OwnerEntity "group:pet-managers"
     rfl (by decide) rfl,
   capi_c5_guest_fallback_and_owner_precedence.2.2.1 "CAPIClusterProvider:default"
     (some c5Defaults) none c5Cluster c5DefaultEntity "group:test-team"
     rfl rfl (by decide) rfl,
   capi_c5_guest_fallback_and_owner_precedence.2.2.2 "CAPIClusterProvider:default"
     none none c5Cluster c5Entity rfl rfl rfl⟩

/-- C6: a tags annotation `"tag1, tag2,tag3"` maps to the tags list
`["tag1","tag2","tag3"]` — split on commas, each token trimmed — regardless of
any provider-default tags list. -/
theorem capi_c6_tags_split_and_trimmed (pn : String) (dfl : Option ProviderDefaults)
    (kc : Option KubeConfig) (c : Cluster) (e : ResourceEntity)
    (htags : annLookup c ANNOTATION_CAPI_CLUSTER_TAGS = some "tag1, tag2,tag3")
    (hmap : mapClusterEntity pn dfl kc c = .ok e) :
    e.metadata.tags = some ["tag1", "tag2", "tag3"] := by
  obtain ⟨server, ca, _, _, he⟩ := (mapClusterEntity_ok_iff pn dfl kc c e).mp hmap
  subst he
  simp [entityFor, clusterAnnotations, htags, jsOrArr]
  rfl

/-- Witness for C6 at a concrete cluster with competing default tags. -/
theorem capi_c6_witness : c6Entity.metadata.tags = some ["tag1", "tag2", "tag3"] :=
  capi_c6_tags_split_and_trimmed "CAPIClusterProvider:default" (some c6Defaults)
    none c6Cluster c6Entity rfl rfl

/-- C7: the full-set mutation submitted by a successful cycle has one entry
per listed remote cluster, in order, each entity taking `metadata.name`
verbatim from the remote cluster's name, and every entry carrying the
provider identity `CAPIClusterProvider:<id>` as its location key — no local
deduplication of repeated names. -/
theorem capi_c7_mutation_entries (env : RefreshEnv) (id : String)
    (dfl : Option ProviderDefaults) (clusters : List Cluster)
    (rs : List ResourceEntity)
    (hlist : env.listClusters = .ok clusters)
    (hres : refreshResources env (getProviderName id) dfl clusters = .ok rs) :
    (refresh env id dfl true).mutations =
      [{ mutType := "full"
         entities := rs.map (fun e =>
           { entity := e, locationKey := getProviderName id }) }] ∧
    rs.length = clusters.length ∧
    ∀ i (h1 : i < clusters.length) (h2 : i < rs.length),
      (rs.get ⟨i, h2⟩).metadata.name = (clusters.get ⟨i, h1⟩).metadata.bind (·.name) := by
  have hmapm := hres
  simp only [refreshResources] at hmapm
  refine ⟨by simp [refresh, hlist, hres], (exceptMap_ok _ _ _ hmapm).1, ?_⟩
  intro i h1 h2
  exact mapClusterEntity_name _ _ _ _ _ ((exceptMap_ok _ _ _ hmapm).2 i h1 h2)

/-- Witness for C7: two remote clusters sharing one name yield two mutation
entries with that same name and the shared location key. -/
theorem capi_c7_witness :
    (refresh c7Env "default" none true).mutations =
      [{ mutType := "full"
         entities := c7Resources.map (fun e =>
           { entity := e, locationKey := getProviderName "default" }) }] ∧
    c7Resources.length = 2 ∧
    c7Resources.map (fun e => e.metadata.name) = [some "dup", some "dup"] :=
  ⟨(capi_c7_mutation_entries c7Env "default" none [c7ClusterA, c7ClusterB]
      c7Resources rfl rfl).1,
   ((capi_c7_mutation_entries c7Env "default" none [c7ClusterA, c7ClusterB]
      c7Resources rfl rfl).2.1).trans rfl,
   rfl⟩

/-- C8: a cycle whose CAPI list call succeeds with zero remote clusters still
submits exactly one full-type mutation with an empty entity list. -/
theorem capi_c8_empty_cluster_list_submits (env : RefreshEnv) (id : String)
    (dfl : Option ProviderDefaults) (h : env.listClusters = .ok []) :
    refresh env id dfl true =
      { mutations := [{ mutType := "full", entities := [] }], result := .ok () } := by
  simp [refresh, h, refreshResources, fetchedKubeConfigs, exceptMap]

/-- Witness for C8 at a concrete empty listing. -/
theorem capi_c8_witness :
    refresh c8Env "default" none true =
      { mutations := [{ mutType := "full", entities := [] }], result := .ok () } :=
  capi_c8_empty_cluster_list_submits c8Env "default" none rfl

/-- C9: when `spec.infrastructureRef` is absent or its `kind` is absent, the
provider-kind annotation value is the empty string and appears on the mapped
entity as `""`; `capiClusterProvider` is a total function, so computing it
never throws. -/
theorem capi_c9_provider_kind_empty (pn : String) (dfl : Option ProviderDefaults)
    (kc : Option KubeConfig) (c : Cluster) (e : ResourceEntity)
    (h : c.spec.infrastructureRef = none ∨
      ∃ r, c.spec.infrastructureRef = some r ∧ r.kind = none)
    (hmap : mapClusterEntity pn dfl kc c = .ok e) :
    capiClusterProvider c = "" ∧
    e.metadata.annotations.lookup ANNOTATION_CAPI_PROVIDER = some (some "") := by
  have hcp : capiClusterProvider c = "" := by
    rcases h with h | ⟨r, hr, hk⟩
    · simp [capiClusterProvider, h]
    · simp [capiClusterProvider, hr, hk]
  obtain ⟨server, ca, _, _, he⟩ := (mapClusterEntity_ok_iff pn dfl kc c e).mp hmap
  subst he
  refine ⟨hcp, ?_⟩
  simp [entityFor, List.lookup, ANNOTATION_LOCATION, ANNOTATION_ORIGIN_LOCATION,
    ANNOTATION_CAPI_PROVIDER, hcp]

/-- Witness for C9 at a concrete cluster with no `infrastructureRef`. -/
theorem capi_c9_witness :
    capiClusterProvider c9Cluster = "" ∧
    c9Entity.metadata.annotations.lookup ANNOTATION_CAPI_PROVIDER = some (some "") :=
  capi_c9_provider_kind_empty "CAPIClusterProvider:default" none none c9Cluster
    c9Entity (Or.inl rfl) rfl

/-- C10: an owner, lifecycle or system annotation whose value is the empty
string is treated as absent — the field falls through to the provider default
and, for owner, ultimately to `"guest"` — because the precedence chain is
decided by JS value truthiness, not key presence. -/
theorem capi_c10_empty_annotations_fall_through :
    (∀ pn dfl kc c e d,
      annLookup c ANNOTATION_CAPI_CLUSTER_OWNER = some "" →
      dfl.bind (fun x => x.clusterOwner) = some d → d ≠ "" →
      mapClusterEntity pn dfl kc c = .ok e → e.spec.owner = d) ∧
    (∀ pn kc c e,
      annLookup c ANNOTATION_CAPI_CLUSTER_OWNER = some "" →
      mapClusterEntity pn none kc c = .ok e → e.spec.owner = "guest") ∧
    (∀ pn dfl kc c e,
      annLookup c ANNOTATION_CAPI_CLUSTER_LIFECYCLE = some "" →
      mapClusterEntity pn dfl kc c = .ok e →
      e.spec.lifecycle = dfl.bind (fun x => x.lifecycle)) ∧
    (∀ pn dfl kc c e,
      annLookup c ANNOTATION_CAPI_CLUSTER_SYSTEM = some "" →
      mapClusterEntity pn dfl kc c = .ok e →
      e.spec.system = dfl.bind (fun x => x.system)) := by
  refine ⟨?_, ?_, ?_, ?_⟩
  · intro pn dfl kc c e d ho hdfl hne hmap
    obtain ⟨server, ca, _, _, he⟩ := (mapClusterEntity_ok_iff pn dfl kc c e).mp hmap
    subst he
    simp [entityFor, clusterAnnotations, ho, hdfl, jsOr, jsOrD, hne]
  · intro pn kc c e ho hmap
    obtain ⟨server, ca, _, _, he⟩ := (mapClusterEntity_ok_iff pn none kc c e).mp hmap
    subst he
    simp [entityFor, clusterAnnotations, ho, jsOr, jsOrD]
  · intro pn dfl kc c e hl hmap
    obtain ⟨server, ca, _, _, he⟩ := (mapClusterEntity_ok_iff pn dfl kc c e).mp hmap
    subst he
    simp [entityFor, clusterAnnotations, hl, jsOr]
  · intro pn dfl kc c e hs hmap
    obtain ⟨server, ca, _, _, he⟩ := (mapClusterEntity_ok_iff pn dfl kc c e).mp hmap
    subst he
    simp [entityFor, clusterAnnotations, hs, jsOr]

/-- Witness for C10 at concrete clusters with empty-string annotations. -/
theorem capi_c10_witness :
    c10EntityWithDefaults.spec.owner = "group:fallback-team" ∧
    c10EntityNoDefaults.spec.owner = "guest" ∧
    c10EntityWithDefaults.spec.lifecycle = some "fallback-lifecycle" ∧
    c10EntityWithDefaults.spec.system = some "fallback-system" :=
  ⟨capi_c10_empty_annotations_fall_through.1 "CAPIClusterProvider:default"
     (some c10Defaults) none c10AllEmptyCluster c10EntityWithDefaults
     "group:fallback-team" rfl rfl (by decide) rfl,
   capi_c10_empty_annotations_fall_through.2.1 "CAPIClusterProvider:default"
     none c10OwnerEmptyCluster c10EntityNoDefaults rfl rfl,
   (capi_c10_empty_annotations_fall_through.2.2.1 "CAPIClusterProvider:default"
     (some c10Defaults) none c10AllEmptyCluster c10EntityWithDefaults rfl rfl).trans rfl,
   (capi_c10_empty_annotations_fall_through.2.2.2 "CAPIClusterProvider:default"
     (some c10Defaults) none c10AllEmptyCluster c10EntityWithDefaults rfl rfl).trans rfl⟩

end CapiProvider
